import Mathlib

/-!
Verification of the classification-and-deduplicated-storage core of the
Intelligent Multi-Modal Storage System (`app/utils/json_analyzer.py`).

The Python code is shallowly embedded: parsed JSON documents become the
inductive type `JSON`, the analyzer methods become pure Lean functions,
and the stateful storage methods become explicit state-passing functions
over `StorageState`.  Machine-level details that the claims depend on are
modelled faithfully: the content fingerprint is a full implementation of
MD5 over byte lists (`md5Hex`), Python's `in` substring test becomes
`strContains`, and `pathlib`'s `stem`/`suffix` become `pathStem` /
`pathSuffix`.

Modelling notes (deviations forced by determinism of the embedding):
* `datetime.now()` values are passed in as explicit `timestamp` /
  `isoNow` string parameters.
* Python `set` iteration order is implementation-defined; since the key
  sets involved come from `dict.keys()` (whose elements are distinct and
  in insertion order), `list(set(keys))` is modelled as first-seen-order
  deduplication (`dedupFirstSeen`).
* `Path.glob("*")` listing order is unspecified; buckets are modelled as
  arrival-ordered lists of file names.
* `shutil.move` is modelled as an atomic operation that either fully
  succeeds or raises; the raised case is injected through a `moveFails`
  flag so that the `except` branch of `store_json_file` is reachable.
-/

/-- Parsed JSON values (`json.load` output): mappings keep their fields in
insertion order, mirroring Python `dict`. -/
inductive JSON where
  | null
  | bool (b : Bool)
  | num (n : Int)
  | str (s : String)
  | arr (elems : List JSON)
  | obj (fields : List (String × JSON))

/-- Models `isinstance(x, dict)`. -/
def JSON.isObjB : JSON → Bool
  | .obj _ => true
  | _ => false

/-- Models `isinstance(x, (dict, list))`. -/
def JSON.isObjOrArrB : JSON → Bool
  | .obj _ => true
  | .arr _ => true
  | _ => false

/-- Models `x.keys()` for a mapping (insertion order); `[]` on non-mappings,
which the analyzer never queries. -/
def JSON.keysOf : JSON → List String
  | .obj fields => fields.map Prod.fst
  | _ => []

/-- Models building `set(keys)` and listing it: first-seen-order
deduplication of a key list (see the modelling notes above). -/
def dedupFirstSeen (l : List String) : List String :=
  l.foldl (fun acc k => if acc.contains k then acc else acc ++ [k]) []

/-- Python `set(a) == set(b)`: equality of the underlying element sets. -/
def keySetEq (a b : List String) : Bool :=
  a.all b.contains && b.all a.contains

/-- Python `str.lower`, for the ASCII keys the analyzer compares. -/
def strLower (s : String) : String := ⟨s.data.map Char.toLower⟩

/-- Python `str.upper`, used for the `storage_type` result field. -/
def strUpper (s : String) : String := ⟨s.data.map Char.toUpper⟩

/-- Does `hay` start with `needle` (character-wise)? -/
def charsStartWith (needle hay : List Char) : Bool :=
  match needle, hay with
  | [], _ => true
  | c :: cs, d :: ds => c == d && charsStartWith cs ds
  | _ :: _, [] => false

/-- Python `str.endswith`. -/
def strEndsWith (s t : String) : Bool := charsStartWith t.data.reverse s.data.reverse

/-- The analysis dictionary produced by `JSONAnalyzer.analyze_json_file`:
mandatory `recommendation`/`reason` keys plus the optional keys the
individual branches add. -/
structure Analysis where
  recommendation : String
  reason : String
  estimated_rows : Option Nat := none
  columns : Option (List String) := none
  nesting_level : Option Nat := none
  keys : Option (List String) := none
deriving DecidableEq, Repr

/-- Source method `JSONAnalyzer._is_sql_optimized` (the `sample` parameter is unused in
the source; only the key set matters). -/
def is_sql_optimized (keys : List String) : Bool :=
  if keys.length > 50 then false
  else
    let has_id := keys.any (fun k => strLower k = "id" || strLower k = "_id")
    let has_foreign_keys := keys.any (fun k => strEndsWith k "_id")
    has_id || has_foreign_keys || keys.length ≤ 20

/-- Source method `JSONAnalyzer._analyze_array`. -/
def analyze_array (data : List JSON) : Analysis :=
  match data with
  | [] => { recommendation := "nosql", reason := "Empty array" }
  | x :: _ =>
    let sample := data.take 10
    if ! sample.all JSON.isObjB then
      { recommendation := "nosql",
        reason := "Array contains non-object items, lacks uniform structure" }
    else
      let first_keys := dedupFirstSeen x.keysOf
      let consistent_structure := sample.all (fun item => keySetEq item.keysOf first_keys)
      if consistent_structure && is_sql_optimized first_keys then
        { recommendation := "sql",
          reason := "Uniform structured data optimized for SQL",
          estimated_rows := some data.length,
          columns := some first_keys }
      else
        { recommendation := "nosql",
          reason := "Variable structure or complex data, better for NoSQL batch insertion" }

/-- The `has_immediate_nesting` loop of `JSONAnalyzer._analyze_object`:
some first-level value is a non-empty dict, or a non-empty list holding
at least one dict or list. -/
def hasImmediateNesting (fields : List (String × JSON)) : Bool :=
  fields.any (fun f =>
    (match f.2 with
     | .obj inner => !inner.isEmpty
     | _ => false) ||
    (match f.2 with
     | .arr elems => !elems.isEmpty && elems.any JSON.isObjOrArrB
     | _ => false))

mutual

/-- Source method `JSONAnalyzer._calculate_depth`: recurse into dict values; for list
values, recurse into the first element only when it is itself a dict. -/
def calculate_depth (obj : JSON) (current_depth : Nat) : Nat :=
  match obj with
  | .obj fields => depthOverFields fields current_depth
  | _ => current_depth

/-- The `for value in obj.values()` loop of `_calculate_depth`,
accumulating the running maximum (initially `current_depth`). -/
def depthOverFields (fields : List (String × JSON)) (current_depth : Nat) : Nat :=
  match fields with
  | [] => current_depth
  | (_, value) :: rest =>
    let m := depthOverFields rest current_depth
    match value with
    | .obj inner => max m (calculate_depth (.obj inner) (current_depth + 1))
    | .arr (x :: _) =>
      match x with
      | .obj inner => max m (calculate_depth (.obj inner) (current_depth + 1))
      | _ => m
    | _ => m

end

/-- Source method `JSONAnalyzer._analyze_object`. -/
def analyze_object (fields : List (String × JSON)) : Analysis :=
  let max_depth := calculate_depth (.obj fields) 0
  if hasImmediateNesting fields then
    { recommendation := "nosql",
      reason := "Contains nested dictionary or list (depth: " ++ toString max_depth ++
        "), ideal for document storage.",
      nesting_level := some max_depth }
  else
    { recommendation := "sql",
      reason := "Flat structure, ideal for relational querying.",
      keys := some (fields.map Prod.fst) }

/-- Source method `JSONAnalyzer.analyze_json_file`.  The file system read and
`json.load` are factored out: the caller passes the file's byte size and
the parse outcome (`Except.error` carries `str(e)` of the
`JSONDecodeError`). -/
def analyze_json_file (file_size : Nat) (parsed : Except String JSON) : Analysis :=
  if file_size > 10 * 1024 * 1024 then
    { recommendation := "nosql", reason := "File too large for SQL optimization" }
  else
    match parsed with
    | .error e => { recommendation := "nosql", reason := "Invalid JSON: " ++ e }
    | .ok (.arr elems) => analyze_array elems
    | .ok (.obj fields) => analyze_object fields
    | .ok _ =>
      { recommendation := "nosql",
        reason := "Simple scalar data type, best handled as NoSQL document" }

/-- The 64 MD5 sine-derived round constants (RFC 1321). -/
def md5K : List Nat :=
  [0xd76aa478, 0xe8c7b756, 0x242070db, 0xc1bdceee,
   0xf57c0faf, 0x4787c62a, 0xa8304613, 0xfd469501,
   0x698098d8, 0x8b44f7af, 0xffff5bb1, 0x895cd7be,
   0x6b901122, 0xfd987193, 0xa679438e, 0x49b40821,
   0xf61e2562, 0xc040b340, 0x265e5a51, 0xe9b6c7aa,
   0xd62f105d, 0x02441453, 0xd8a1e681, 0xe7d3fbc8,
   0x21e1cde6, 0xc33707d6, 0xf4d50d87, 0x455a14ed,
   0xa9e3e905, 0xfcefa3f8, 0x676f02d9, 0x8d2a4c8a,
   0xfffa3942, 0x8771f681, 0x6d9d6122, 0xfde5380c,
   0xa4beea44, 0x4bdecfa9, 0xf6bb4b60, 0xbebfbc70,
   0x289b7ec6, 0xeaa127fa, 0xd4ef3085, 0x04881d05,
   0xd9d4d039, 0xe6db99e5, 0x1fa27cf8, 0xc4ac5665,
   0xf4292244, 0x432aff97, 0xab9423a7, 0xfc93a039,
   0x655b59c3, 0x8f0ccc92, 0xffeff47d, 0x85845dd1,
   0x6fa87e4f, 0xfe2ce6e0, 0xa3014314, 0x4e0811a1,
   0xf7537e82, 0xbd3af235, 0x2ad7d2bb, 0xeb86d391]

/-- The per-round left-rotation amounts of MD5. -/
def md5S : List Nat :=
  [7, 12, 17, 22, 7, 12, 17, 22, 7, 12, 17, 22, 7, 12, 17, 22,
   5, 9, 14, 20, 5, 9, 14, 20, 5, 9, 14, 20, 5, 9, 14, 20,
   4, 11, 16, 23, 4, 11, 16, 23, 4, 11, 16, 23, 4, 11, 16, 23,
   6, 10, 15, 21, 6, 10, 15, 21, 6, 10, 15, 21, 6, 10, 15, 21]

/-- Little-endian byte expansion of `n` to `k` bytes. -/
def natLEBytes (n k : Nat) : List Nat :=
  (List.range k).map (fun i => (n >>> (8 * i)) % 256)

/-- MD5 padding: a `0x80` byte, zeros to 56 mod 64, then the 64-bit
little-endian bit length. -/
def md5Pad (msg : List Nat) : List Nat :=
  let zeros := (64 + 56 - ((msg.length + 1) % 64)) % 64
  msg ++ [0x80] ++ List.replicate zeros 0 ++ natLEBytes ((msg.length * 8) % 2 ^ 64) 8

/-- Chunking into 64-byte blocks, structurally recursive on a fuel argument so that
the kernel can evaluate it (the fuel is the list length, always enough
because each step consumes at least one element). -/
def chunks64Go : Nat → List Nat → List (List Nat)
  | _, [] => []
  | 0, _ => []
  | fuel + 1, l => l.take 64 :: chunks64Go fuel (l.drop 64)

/-- Split a byte list into 64-byte chunks. -/
def chunks64 (l : List Nat) : List (List Nat) :=
  chunks64Go l.length l

/-- Little-endian 32-bit word from 4 bytes. -/
def leWord (b : List Nat) : Nat :=
  match b with
  | [b0, b1, b2, b3] => b0 + 256 * b1 + 65536 * b2 + 16777216 * b3
  | _ => 0

/-- The sixteen 32-bit message words of one chunk. -/
def chunkWords (c : List Nat) : List Nat :=
  (List.range 16).map (fun i => leWord ((c.drop (4 * i)).take 4))

/-- Left rotation of a 32-bit word. -/
def rotl32 (x s : Nat) : Nat :=
  ((x <<< s) % 4294967296) ||| (x >>> (32 - s))

/-- The MD5 round mixing function (F, G, H, I by round index). -/
def md5Mix (i b c d : Nat) : Nat :=
  if i < 16 then (b &&& c) ||| ((4294967295 - b) &&& d)
  else if i < 32 then (d &&& b) ||| ((4294967295 - d) &&& c)
  else if i < 48 then b ^^^ c ^^^ d
  else c ^^^ (b ||| (4294967295 - d))

/-- The message-word index used in round `i`. -/
def md5Idx (i : Nat) : Nat :=
  if i < 16 then i
  else if i < 32 then (5 * i + 1) % 16
  else if i < 48 then (3 * i + 5) % 16
  else (7 * i) % 16

/-- One MD5 round on the state `(a, b, c, d)`. -/
def md5Step (M : List Nat) (st : Nat × Nat × Nat × Nat) (i : Nat) : Nat × Nat × Nat × Nat :=
  let (a, b, c, d) := st
  let f := (md5Mix i b c d + a + md5K.getD i 0 + M.getD (md5Idx i) 0) % 4294967296
  (d, (b + rotl32 f (md5S.getD i 0)) % 4294967296, b, c)

/-- Process one 64-byte chunk of the padded message. -/
def md5Chunk (st : Nat × Nat × Nat × Nat) (chunk : List Nat) : Nat × Nat × Nat × Nat :=
  let M := chunkWords chunk
  let r := (List.range 64).foldl (md5Step M) st
  ((st.1 + r.1) % 4294967296, (st.2.1 + r.2.1) % 4294967296,
   (st.2.2.1 + r.2.2.1) % 4294967296, (st.2.2.2 + r.2.2.2) % 4294967296)

/-- Lowercase hexadecimal digits. -/
def hexDigits : List Char := "0123456789abcdef".data

/-- Two lowercase hex characters of one byte. -/
def byteHex (b : Nat) : List Char :=
  [hexDigits.getD (b / 16 % 16) '0', hexDigits.getD (b % 16) '0']

/-- Hex rendering of a 32-bit word, least-significant byte first, as in
MD5's digest output. -/
def wordHexLE (w : Nat) : List Char :=
  byteHex (w % 256) ++ byteHex (w / 256 % 256) ++ byteHex (w / 65536 % 256) ++
    byteHex (w / 16777216 % 256)

/-- Models `hashlib.md5(bytes).hexdigest()`: the 32-character lowercase hex MD5
digest of a byte list.  Models `JSONAnalyzer._get_file_hash` applied to
a temporary file holding exactly these bytes. -/
def md5Hex (msg : List Nat) : String :=
  let r := chunks64 (md5Pad msg) |>.foldl md5Chunk
    (0x67452301, 0xefcdab89, 0x98badcfe, 0x10325476)
  ⟨wordHexLE r.1 ++ wordHexLE r.2.1 ++ wordHexLE r.2.2.1 ++ wordHexLE r.2.2.2⟩

/-- Python string slicing `s[:n]`. -/
def strTake (s : String) (n : Nat) : String := ⟨s.data.take n⟩

/-- Does `hay` contain `needle` as a contiguous run? -/
def charsContain (needle hay : List Char) : Bool :=
  match hay with
  | [] => charsStartWith needle []
  | _ :: t => charsStartWith needle hay || charsContain needle t

/-- Python's substring test `needle in hay`. -/
def strContains (hay needle : String) : Bool := charsContain needle.data hay.data

/-- Index of the last `.` in a character list (Python `str.rfind`),
`none` when absent. -/
def rfindDot (l : List Char) : Option Nat :=
  match l.reverse.findIdx? (· == '.') with
  | some i => some (l.length - 1 - i)
  | none => none

/-- Models `pathlib.PurePath.suffix` for a bare file name: the part from the
last dot on, provided that dot is neither the first nor the last
character; empty otherwise. -/
def pathSuffix (name : String) : String :=
  match rfindDot name.data with
  | some i => if 0 < i ∧ i + 1 < name.data.length then ⟨name.data.drop i⟩ else ""
  | none => ""

/-- Models `pathlib.PurePath.stem` for a bare file name. -/
def pathStem (name : String) : String :=
  match rfindDot name.data with
  | some i => if 0 < i ∧ i + 1 < name.data.length then ⟨name.data.take i⟩ else name
  | none => name

/-- Models `pathlib.PurePath.name`: the component after the last `/`. -/
def pathName (p : String) : String :=
  ⟨(p.data.reverse.takeWhile (· ≠ '/')).reverse⟩

/-- The operational side-record written by `JSONAnalyzer._save_metadata`
to `<stored stem>.meta.json` in the bucket directory. -/
structure MetadataRecord where
  original_filename : String
  analysis : Analysis
  analyzed_at : String
  file_size : Nat
deriving DecidableEq, Repr

/-- The inferred-schema side-record written by
`JSONAnalyzer._save_metadata` to `<stored stem>.schema.json` under the
schemas directory. -/
structure SchemaRecord where
  original_filename : String
  storage_type : String
  columns : List String
  reason : String
  analyzed_at : String
deriving DecidableEq, Repr

/-- The persistent state `JSONAnalyzer` mutates: the two class buckets
(arrival-ordered file-name listings of `databases/sql` and
`databases/nosql`, including `.meta.json` side files), the schemas
directory listing, the contents of the written side-records keyed by
file name, and whether the incoming temporary payload file still
exists. -/
structure StorageState where
  sqlBucket : List String
  nosqlBucket : List String
  schemaDir : List String
  metaRecords : List (String × MetadataRecord)
  schemaRecords : List (String × SchemaRecord)
  tempExists : Bool
deriving DecidableEq, Repr

/-- The dictionary returned by `JSONAnalyzer.store_json_file`.  Keys a
branch does not set are modelled by their Python-falsy defaults (the
success path sets no `duplicate` key; `result.get("duplicate")` is then
falsy, modelled as `false`). -/
structure StoreResult where
  success : Bool
  original_name : String := ""
  stored_name : String := ""
  storage_type : String := ""
  final_path : String := ""
  reason : String := ""
  duplicate : Bool := false
  message : String := ""
  file_hash : String := ""
  timestamp : String := ""
  error : String := ""
deriving DecidableEq, Repr

/-- Path `self.sql_path` as a string. -/
def sqlDirStr : String := "app/storage/databases/sql"

/-- Path `self.nosql_path` as a string. -/
def nosqlDirStr : String := "app/storage/databases/nosql"

/-- Source method `JSONAnalyzer._check_duplicate`: scan the target class bucket for a
plain `.json` entry (side files excluded) whose name contains
`file_hash`, returning `str(existing_file)` (directory + name) for the
first match in listing order, or `""`. -/
def check_duplicate (st : StorageState) (file_hash storage_type : String) : String :=
  let bucket := if storage_type = "sql" then st.sqlBucket else st.nosqlBucket
  let dir := if storage_type = "sql" then sqlDirStr else nosqlDirStr
  match bucket.find? (fun n =>
      strEndsWith n ".json" && !(strEndsWith n ".meta.json") && !(strEndsWith n ".schema.json") &&
        strContains n file_hash) with
  | some n => dir ++ "/" ++ n
  | none => ""

/-- Source method `JSONAnalyzer._save_metadata`: append the `.meta.json` side file to
the bucket that received `new_name`, record its contents, and likewise
write the `.schema.json` record under the schemas directory.
`isoNow` stands for `datetime.now().isoformat()`. -/
def save_metadata (st : StorageState) (analysis : Analysis) (original_name new_name : String)
    (file_size : Nat) (isoNow : String) : StorageState :=
  let meta_name := pathStem new_name ++ ".meta.json"
  let mrec : MetadataRecord :=
    { original_filename := original_name, analysis := analysis,
      analyzed_at := isoNow, file_size := file_size }
  let schema_name := pathStem new_name ++ ".schema.json"
  let srec : SchemaRecord :=
    { original_filename := original_name, storage_type := analysis.recommendation,
      columns := analysis.columns.getD (analysis.keys.getD []),
      reason := analysis.reason, analyzed_at := isoNow }
  let st1 :=
    if analysis.recommendation = "sql" then
      { st with sqlBucket := st.sqlBucket ++ [meta_name] }
    else
      { st with nosqlBucket := st.nosqlBucket ++ [meta_name] }
  { st1 with
    metaRecords := st1.metaRecords ++ [(meta_name, mrec)],
    schemaDir := st1.schemaDir ++ [schema_name],
    schemaRecords := st1.schemaRecords ++ [(schema_name, srec)] }

/-- Source method `JSONAnalyzer.store_json_file`.  `content` is the byte content of the
temporary file, `timestamp` stands for
`datetime.now().strftime("%Y%m%d_%H%M%S")`, and `moveFails` injects the
only I/O failure mode of the relocation step (`shutil.move` raising),
which lands in the method's `except` branch: the temporary payload is
unlinked and a failure result is returned. -/
def store_json_file (st : StorageState) (content : List Nat) (original_name : String)
    (analysis : Analysis) (timestamp isoNow : String) (moveFails : Bool) :
    StorageState × StoreResult :=
  let file_hash := md5Hex content
  let name_stem := pathStem original_name
  let extension := pathSuffix original_name
  let duplicate := check_duplicate st file_hash analysis.recommendation
  if duplicate ≠ "" then
    ({ st with tempExists := false },
     { success := true, original_name := original_name,
       stored_name := pathName duplicate,
       storage_type := strUpper analysis.recommendation,
       final_path := duplicate, reason := analysis.reason, duplicate := true,
       message := "File already exists (duplicate detected)" })
  else
    let new_name := name_stem ++ "_" ++ timestamp ++ "_" ++ strTake file_hash 8 ++ extension
    let dir := if analysis.recommendation = "sql" then sqlDirStr else nosqlDirStr
    let storage_type := if analysis.recommendation = "sql" then "SQL" else "NoSQL"
    let final_path := dir ++ "/" ++ new_name
    if moveFails then
      ({ st with tempExists := false },
       { success := false, error := "I/O error while moving file into bucket" })
    else
      let moved :=
        if analysis.recommendation = "sql" then
          { st with sqlBucket := st.sqlBucket ++ [new_name], tempExists := false }
        else
          { st with nosqlBucket := st.nosqlBucket ++ [new_name], tempExists := false }
      let st2 := save_metadata moved analysis original_name new_name content.length isoNow
      (st2,
       { success := true, original_name := original_name, stored_name := new_name,
         storage_type := storage_type, final_path := final_path,
         reason := analysis.reason, file_hash := file_hash, timestamp := timestamp })

/-- The upload route's core (`json_routes.upload_json`): write the bytes
to a temporary file, analyze, then store. -/
def ingest (st : StorageState) (content : List Nat) (parsed : Except String JSON)
    (declared_name timestamp isoNow : String) : StorageState × StoreResult :=
  let analysis := analyze_json_file content.length parsed
  store_json_file st content declared_name analysis timestamp isoNow false

/-- The data entries of a class bucket: plain `.json` files with the
side files excluded, exactly the filter `_check_duplicate` and the
listing route apply. -/
def bucketEntries (st : StorageState) (storage_type : String) : List String :=
  (if storage_type = "sql" then st.sqlBucket else st.nosqlBucket).filter
    (fun n => strEndsWith n ".json" && !(strEndsWith n ".meta.json") && !(strEndsWith n ".schema.json"))

/-- The state of a freshly created storage root with a pending temporary
upload. -/
def emptyState : StorageState :=
  { sqlBucket := [], nosqlBucket := [], schemaDir := [],
    metaRecords := [], schemaRecords := [], tempExists := true }

mutual

/-- Depth routine as the spec sentence behind claim C8 describes it:
recursive descent into all mapping values and, for sequence values, into
the first element unconditionally; a non-mapping node yields its
enclosing call depth.  Kept separate from `calculate_depth` (the source
routine) so the two can be compared. -/
def claimDepth (obj : JSON) (current_depth : Nat) : Nat :=
  match obj with
  | .obj fields => claimDepthFields fields current_depth
  | _ => current_depth

/-- Value loop of `claimDepth`: sequences are entered at their first
element whether or not that element is a mapping. -/
def claimDepthFields (fields : List (String × JSON)) (current_depth : Nat) : Nat :=
  match fields with
  | [] => current_depth
  | (_, value) :: rest =>
    let m := claimDepthFields rest current_depth
    match value with
    | .obj inner => max m (claimDepth (.obj inner) (current_depth + 1))
    | .arr (x :: _) => max m (claimDepth x (current_depth + 1))
    | _ => m

end

/-- SQL-suitability as the claim C3 sentence states it: reject above 50
keys; otherwise accept on an identifier-like key — case-insensitive
match on `id`, or a key ending in `_id` — or at most 20 keys. -/
def claimSqlSuitable (keys : List String) : Bool :=
  if keys.length > 50 then false
  else
    keys.any (fun k => strLower k = "id") || keys.any (fun k => strEndsWith k "_id") ||
      keys.length ≤ 20

/-- SQL-suitability in the amended claim C3's words: at most 50 keys,
and either an identifier-like key (case-insensitive match on `id` or
`_id`, or a key ending in `_id`) or at most 20 keys. -/
def amendedSqlSuitable (keys : List String) : Bool :=
  decide (keys.length ≤ 50) &&
    (keys.any (fun k => strLower k = "id" || strLower k = "_id" || strEndsWith k "_id") ||
      decide (keys.length ≤ 20))

/-- A flat mapping with 60 distinct keys, none identifier-like. -/
def flat60 : List (String × JSON) :=
  (List.range 60).map (fun i => ("k" ++ toString i, JSON.num (Int.ofNat i)))

/-- One-element array whose object carries 21 keys, among them `_ID`:
the source treats `_ID` as identifier-like, the claim C3 wording does
not. -/
def c3cexData : List JSON :=
  [.obj (("_ID", .num 0) :: (List.range 20).map (fun i => ("c" ++ toString i, JSON.num (Int.ofNat i))))]

/-- A mapping whose only value is a list whose first element is a list:
nesting is reported, but the source depth routine does not descend into
the non-mapping first element. -/
def c8cexFields : List (String × JSON) := [("a", .arr [.arr [.num 1]])]

/-- A nested mapping: classified Document, so its verdict carries no
key list and the schema record's columns come out empty. -/
def c9cexFields : List (String × JSON) := [("a", .obj [("b", .num 1)])]

/-- A bucket state whose single stored name contains the full MD5 digest
of the empty payload, making the duplicate scan fire. -/
def dupState : StorageState :=
  { emptyState with nosqlBucket := ["d41d8cd98f00b204e9800998ecf8427e.json"] }

set_option maxRecDepth 100000

/-- Appending to a string with non-empty data cannot give the empty
string. -/
theorem strAppend_ne_empty (a b : String) (h : a.data ≠ []) : a ++ b ≠ "" := by
  cases a with
  | mk la =>
    cases b with
    | mk lb =>
      intro h2
      have h3 : la ++ lb = [] := congrArg String.data h2
      exact h (by simpa using List.append_eq_nil.mp h3 |>.1 ▸ rfl)

/-- Character data of an appended string. -/
theorem strData_append (a b : String) : (a ++ b).data = a.data ++ b.data := by
  cases a; cases b; rfl

/-- A list starts with itself followed by anything. -/
theorem charsStartWith_append (n t : List Char) : charsStartWith n (n ++ t) = true := by
  induction n with
  | nil => rfl
  | cons a as ih => simp [charsStartWith, ih]

/-- Containment survives skipping an arbitrary left part. -/
theorem charsContain_skip (u rest n : List Char) (h : charsStartWith n rest = true) :
    charsContain n (u ++ rest) = true := by
  induction u with
  | nil =>
    cases rest with
    | nil => simpa [charsContain] using h
    | cons b bs => simp [charsContain, h]
  | cons a as ih =>
    simp [charsContain, ih]

/-- A string built around a middle part contains that part. -/
theorem strContains_middle (u n t : String) : strContains (u ++ n ++ t) n = true := by
  unfold strContains
  rw [strData_append, strData_append, List.append_assoc]
  exact charsContain_skip _ _ _ (charsStartWith_append _ _)

/-- Looking up `hexDigits` through `getD` always yields a hex digit. -/
theorem hexDigits_getD_mem (n : Nat) : hexDigits.getD n '0' ∈ hexDigits := by
  rcases Nat.lt_or_ge n 16 with h | h
  · interval_cases n <;> decide
  · rw [List.getD_eq_default _ _ (by simpa [hexDigits] using h)]
    decide

/-- Both characters of a byte's hex rendering are hex digits. -/
theorem byteHex_mem (b : Nat) : ∀ c ∈ byteHex b, c ∈ hexDigits := by
  intro c hc
  simp only [byteHex, List.mem_cons, List.not_mem_nil, or_false] at hc
  rcases hc with h | h <;> (subst h; exact hexDigits_getD_mem _)

/-- All characters of a word's hex rendering are hex digits. -/
theorem wordHexLE_mem (w : Nat) : ∀ c ∈ wordHexLE w, c ∈ hexDigits := by
  intro c hc
  unfold wordHexLE at hc
  rcases List.mem_append.mp hc with hc | hc
  on_goal 2 => exact byteHex_mem _ _ hc
  rcases List.mem_append.mp hc with hc | hc
  on_goal 2 => exact byteHex_mem _ _ hc
  rcases List.mem_append.mp hc with hc | hc
  · exact byteHex_mem _ _ hc
  · exact byteHex_mem _ _ hc

/-- Every character of an MD5 hex digest is a lowercase hex digit. -/
theorem md5Hex_chars (msg : List Nat) : ∀ c ∈ (md5Hex msg).data, c ∈ hexDigits := by
  intro c hc
  unfold md5Hex at hc
  simp only [String.data] at hc
  rcases List.mem_append.mp hc with hc | hc
  on_goal 2 => exact wordHexLE_mem _ _ hc
  rcases List.mem_append.mp hc with hc | hc
  on_goal 2 => exact wordHexLE_mem _ _ hc
  rcases List.mem_append.mp hc with hc | hc
  · exact wordHexLE_mem _ _ hc
  · exact wordHexLE_mem _ _ hc

/-- An MD5 hex digest has 32 characters. -/
theorem md5Hex_length (msg : List Nat) : (md5Hex msg).length = 32 := by
  unfold md5Hex
  simp [String.length, wordHexLE, byteHex]

/-- Variant of `strAppend_ne_empty` for a three-part append. -/
theorem strAppend3_ne_empty (a b c : String) (h : a.data ≠ []) : a ++ b ++ c ≠ "" :=
  strAppend_ne_empty _ _ (by
    rw [strData_append]
    exact fun hh => h (List.append_eq_nil.mp hh).1)

/-- Array analysis always yields one of the two storage classes and a
non-empty reason. -/
theorem analyze_array_shape (data : List JSON) :
    ((analyze_array data).recommendation = "sql" ∨ (analyze_array data).recommendation = "nosql")
      ∧ (analyze_array data).reason ≠ "" := by
  unfold analyze_array
  rcases data with _ | ⟨x, rest⟩
  · exact ⟨Or.inr rfl, by decide⟩
  · dsimp only
    split_ifs with h1 h2
    · exact ⟨Or.inr rfl,
        show ("Array contains non-object items, lacks uniform structure" : String) ≠ "" by decide⟩
    · exact ⟨Or.inl rfl,
        show ("Uniform structured data optimized for SQL" : String) ≠ "" by decide⟩
    · exact ⟨Or.inr rfl,
        show ("Variable structure or complex data, better for NoSQL batch insertion" : String) ≠ ""
          by decide⟩

/-- Mapping analysis always yields one of the two storage classes and a
non-empty reason. -/
theorem analyze_object_shape (fields : List (String × JSON)) :
    ((analyze_object fields).recommendation = "sql" ∨
      (analyze_object fields).recommendation = "nosql")
      ∧ (analyze_object fields).reason ≠ "" := by
  unfold analyze_object
  dsimp only
  split_ifs with h
  · exact ⟨Or.inr rfl, strAppend3_ne_empty _ _ _ (by decide)⟩
  · exact ⟨Or.inl rfl,
      show ("Flat structure, ideal for relational querying." : String) ≠ "" by decide⟩

/-- C2.  For every parsed mapping document, classification returns the
Document class exactly when some first-level value is a non-empty
mapping or a non-empty sequence holding a mapping/sequence element;
otherwise it returns the Relational class with the top-level key list as
its column metric, with no key-count cap applied on this path. -/
theorem mapping_classification (fields : List (String × JSON)) :
    ((analyze_object fields).recommendation = "nosql" ↔ hasImmediateNesting fields = true) ∧
    (hasImmediateNesting fields = false →
      (analyze_object fields).recommendation = "sql" ∧
      (analyze_object fields).keys = some (fields.map Prod.fst)) := by
  by_cases h : hasImmediateNesting fields = true
  · simp [analyze_object, h]
  · simp only [Bool.not_eq_true] at h
    simp [analyze_object, h]

/-- Witness for C2 at a flat mapping with 60 distinct keys and no
identifier-like key: still classified Relational. -/
theorem mapping_classification_witness :
    hasImmediateNesting flat60 = false ∧
    (analyze_object flat60).recommendation = "sql" ∧
    (analyze_object flat60).keys = some (flat60.map Prod.fst) ∧ flat60.length = 60 :=
  ⟨by decide, ((mapping_classification flat60).2 (by decide)).1,
    ((mapping_classification flat60).2 (by decide)).2, by decide⟩

/-- C4.  Classification is total: every payload, malformed input
included, yields a verdict carrying one of the two storage classes and a
non-empty reason, and a parse failure yields the Document (nosql)
class. -/
theorem classification_total (file_size : Nat) (parsed : Except String JSON) :
    ((analyze_json_file file_size parsed).recommendation = "sql" ∨
      (analyze_json_file file_size parsed).recommendation = "nosql") ∧
    (analyze_json_file file_size parsed).reason ≠ "" ∧
    (∀ e, parsed = .error e →
      (analyze_json_file file_size parsed).recommendation = "nosql") := by
  unfold analyze_json_file
  by_cases hs : file_size > 10 * 1024 * 1024
  · rw [if_pos hs]
    exact ⟨Or.inr rfl, by decide, fun e he => rfl⟩
  · rw [if_neg hs]
    cases parsed with
    | error e =>
      exact ⟨Or.inr rfl, strAppend_ne_empty _ _ (by decide), fun e' he' => rfl⟩
    | ok j =>
      cases j with
      | arr elems =>
        exact ⟨(analyze_array_shape elems).1, (analyze_array_shape elems).2,
          fun e he => Except.noConfusion he⟩
      | obj fields =>
        exact ⟨(analyze_object_shape fields).1, (analyze_object_shape fields).2,
          fun e he => Except.noConfusion he⟩
      | null =>
        exact ⟨Or.inr rfl,
          show ("Simple scalar data type, best handled as NoSQL document" : String) ≠ "" by decide,
          fun e he => Except.noConfusion he⟩
      | bool b =>
        exact ⟨Or.inr rfl,
          show ("Simple scalar data type, best handled as NoSQL document" : String) ≠ "" by decide,
          fun e he => Except.noConfusion he⟩
      | num n =>
        exact ⟨Or.inr rfl,
          show ("Simple scalar data type, best handled as NoSQL document" : String) ≠ "" by decide,
          fun e he => Except.noConfusion he⟩
      | str s =>
        exact ⟨Or.inr rfl,
          show ("Simple scalar data type, best handled as NoSQL document" : String) ≠ "" by decide,
          fun e he => Except.noConfusion he⟩

/-- Witness for C4 at an unparsable payload. -/
theorem classification_total_witness :
    (analyze_json_file 0 (.error "Expecting value: line 1 column 1 (char 0)")).recommendation
      = "nosql" :=
  (classification_total 0 (.error "Expecting value: line 1 column 1 (char 0)")).2.2
    "Expecting value: line 1 column 1 (char 0)" rfl

/-- C10.  Any file larger than 10 * 1024 * 1024 bytes is classified
Document (nosql) with the fixed oversize reason, independently of its
content: the parse outcome is never consulted. -/
theorem oversize_short_circuit (file_size : Nat) (parsed other : Except String JSON)
    (h : file_size > 10 * 1024 * 1024) :
    analyze_json_file file_size parsed =
      { recommendation := "nosql", reason := "File too large for SQL optimization" } ∧
    analyze_json_file file_size parsed = analyze_json_file file_size other := by
  constructor
  · unfold analyze_json_file
    rw [if_pos h]
  · unfold analyze_json_file
    rw [if_pos h, if_pos h]

/-- Witness for C10 one byte above the threshold. -/
theorem oversize_short_circuit_witness :
    analyze_json_file 10485761 (.ok (.obj [("id", .num 1)])) =
      { recommendation := "nosql", reason := "File too large for SQL optimization" } :=
  (oversize_short_circuit 10485761 (.ok (.obj [("id", .num 1)])) (.error "x") (by decide)).1

/-- C5.  When the duplicate lookup reports an existing entry, placement
deletes the temporary payload and returns success with the duplicate
flag, the existing name and the existing path, leaving the buckets, the
side-record stores and the schema directory untouched: the full state is
unchanged but for the removed temporary file. -/
theorem duplicate_branch_frame (st : StorageState) (content : List Nat)
    (original_name : String) (analysis : Analysis) (timestamp isoNow : String)
    (moveFails : Bool)
    (h : check_duplicate st (md5Hex content) analysis.recommendation ≠ "") :
    store_json_file st content original_name analysis timestamp isoNow moveFails =
      ({ st with tempExists := false },
       { success := true, original_name := original_name,
         stored_name := pathName (check_duplicate st (md5Hex content) analysis.recommendation),
         storage_type := strUpper analysis.recommendation,
         final_path := check_duplicate st (md5Hex content) analysis.recommendation,
         reason := analysis.reason, duplicate := true,
         message := "File already exists (duplicate detected)" }) := by
  unfold store_json_file
  rw [if_pos h]

/-- Witness for C5: a bucket entry whose name contains the incoming
payload's digest makes the lookup fire, and the state is left unchanged
apart from the temporary file. -/
theorem duplicate_branch_frame_witness :
    store_json_file dupState [] "data.json"
        { recommendation := "nosql", reason := "Empty array" } "20260101_120000" "iso" false =
      ({ dupState with tempExists := false },
       { success := true, original_name := "data.json",
         stored_name := pathName (check_duplicate dupState (md5Hex []) "nosql"),
         storage_type := strUpper "nosql",
         final_path := check_duplicate dupState (md5Hex []) "nosql",
         reason := "Empty array", duplicate := true,
         message := "File already exists (duplicate detected)" }) :=
  duplicate_branch_frame dupState [] "data.json"
    { recommendation := "nosql", reason := "Empty array" } "20260101_120000" "iso" false
    (by decide)

/-- C6.  If the relocation into the bucket fails, placement removes the
temporary payload and returns a failure result carrying the error; no
bucket entry and no side-records are created — the state is unchanged
except that the temporary file is gone. -/
theorem move_failure_cleanup (st : StorageState) (content : List Nat)
    (original_name : String) (analysis : Analysis) (timestamp isoNow : String)
    (h : check_duplicate st (md5Hex content) analysis.recommendation = "") :
    store_json_file st content original_name analysis timestamp isoNow true =
      ({ st with tempExists := false },
       { success := false, error := "I/O error while moving file into bucket" }) := by
  unfold store_json_file
  rw [if_neg (by simp [h])]
  rw [if_pos rfl]

/-- Witness for C6 from the empty storage root. -/
theorem move_failure_cleanup_witness :
    store_json_file emptyState [] "data.json"
        { recommendation := "nosql", reason := "Empty array" } "20260101_120000" "iso" true =
      ({ emptyState with tempExists := false },
       { success := false, error := "I/O error while moving file into bucket" }) :=
  move_failure_cleanup emptyState [] "data.json"
    { recommendation := "nosql", reason := "Empty array" } "20260101_120000" "iso"
    (by decide)

/-- C7.  A newly stored document's name is
`stem_timestamp_digestFirst8chars.extension`; it therefore contains the
8-character fingerprint slice of the content, which is a deterministic
function of the bytes (so identical bytes always embed the same slice),
and every digest character is a lowercase hex digit. -/
theorem stored_name_grammar (st : StorageState) (content : List Nat)
    (original_name : String) (analysis : Analysis) (timestamp isoNow : String)
    (h : check_duplicate st (md5Hex content) analysis.recommendation = "") :
    (store_json_file st content original_name analysis timestamp isoNow false).2.stored_name =
      pathStem original_name ++ "_" ++ timestamp ++ "_" ++ strTake (md5Hex content) 8 ++
        pathSuffix original_name ∧
    strContains
      (store_json_file st content original_name analysis timestamp isoNow false).2.stored_name
      (strTake (md5Hex content) 8) = true ∧
    (md5Hex content).length = 32 ∧
    (∀ c ∈ (md5Hex content).data, c ∈ hexDigits) := by
  have hname :
      (store_json_file st content original_name analysis timestamp isoNow false).2.stored_name =
        pathStem original_name ++ "_" ++ timestamp ++ "_" ++ strTake (md5Hex content) 8 ++
          pathSuffix original_name := by
    unfold store_json_file
    rw [if_neg (by simp [h])]
    rw [if_neg (by simp)]
  refine ⟨hname, ?_, md5Hex_length content, md5Hex_chars content⟩
  rw [hname]
  exact strContains_middle (pathStem original_name ++ "_" ++ timestamp ++ "_") _ _

/-- Witness for C7 at a concrete payload and name. -/
theorem stored_name_grammar_witness :
    (store_json_file emptyState [] "data.json"
        { recommendation := "nosql", reason := "Empty array" } "20260101_120000" "iso"
        false).2.stored_name =
      pathStem "data.json" ++ "_" ++ "20260101_120000" ++ "_" ++ strTake (md5Hex []) 8 ++
        pathSuffix "data.json" :=
  (stored_name_grammar emptyState [] "data.json"
    { recommendation := "nosql", reason := "Empty array" } "20260101_120000" "iso"
    (by decide)).1

/-- C1 (refuting computation).  The failing input: the same payload
ingested twice under the same declared name, landing in the same
storage class.  The duplicate scan looks for the full 32-character
digest inside stored names that embed only its first 8 characters, so
the second ingest is not recognised as a duplicate: it returns
`duplicate = false`, creates a second bucket entry (entry count 2, not
1) and a second pair of side-records, refuting the claim — against the
stated intent of the surrounding code and its duplicate-detection
messages. -/
theorem dedup_never_fires :
    (let r1 := ingest emptyState [] (.error "Expecting value: line 1 column 1 (char 0)")
        "data.json" "20260101_120000" "iso1"
     let r2 := ingest { r1.1 with tempExists := true } []
        (.error "Expecting value: line 1 column 1 (char 0)") "data.json" "20260101_120500" "iso2"
     r2.2.duplicate = false ∧ r2.2.success = true ∧
       (bucketEntries r1.1 "nosql").length = 1 ∧
       (bucketEntries r2.1 "nosql").length = 2 ∧
       r2.1.metaRecords.length = 2 ∧ r2.1.schemaRecords.length = 2 ∧
       r2.2.stored_name ≠ r1.2.stored_name ∧
       strContains r1.2.stored_name (strTake (md5Hex []) 8) = true) := by
  decide

/-- The depth loop never drops below its starting depth. -/
theorem depthOverFields_ge (fields : List (String × JSON)) (d : Nat) :
    d ≤ depthOverFields fields d := by
  induction fields with
  | nil => exact le_refl d
  | cons f rest ih =>
    obtain ⟨k, v⟩ := f
    rcases v with _ | b | n | s | elems | inner
    · exact ih
    · exact ih
    · exact ih
    · exact ih
    · rcases elems with _ | ⟨x, xs⟩
      · exact ih
      · rcases x with _ | b | n | s | xe | xi
        · exact ih
        · exact ih
        · exact ih
        · exact ih
        · exact ih
        · exact le_trans ih (le_max_left _ _)
    · exact le_trans ih (le_max_left _ _)

/-- C8 counterexample: for the mapping whose single value is `[[1]]`,
nesting is reported with depth 0 (the source does not descend into a
sequence's first element unless it is a mapping), while the claim's
descent routine computes depth 1. -/
theorem depth_descent_counterexample :
    hasImmediateNesting c8cexFields = true ∧
    (analyze_object c8cexFields).nesting_level = some 0 ∧
    claimDepth (.obj c8cexFields) 0 = 1 := by decide

/-- C8 amended.  The reported nesting-depth metric (present exactly on
the Document path) is computed by recursive descent into all mapping
values, and, for sequence values, into the first element only when that
element is itself a mapping; the depth of a non-mapping node is its
enclosing call depth. -/
theorem depth_computation (fields : List (String × JSON)) :
    (hasImmediateNesting fields = true →
      (analyze_object fields).nesting_level = some (calculate_depth (.obj fields) 0)) ∧
    (hasImmediateNesting fields = false → (analyze_object fields).nesting_level = none) ∧
    (∀ (j : JSON) (d : Nat), j.isObjB = false → calculate_depth j d = d) ∧
    (∀ d, depthOverFields ([] : List (String × JSON)) d = d) ∧
    (∀ (k : String) (v : JSON) (rest : List (String × JSON)) (d : Nat),
      depthOverFields ((k, v) :: rest) d =
        max (depthOverFields rest d)
          (match v with
           | .obj _ => calculate_depth v (d + 1)
           | .arr (x :: _) => if x.isObjB then calculate_depth x (d + 1) else d
           | _ => d)) := by
  refine ⟨?_, ?_, ?_, ?_, ?_⟩
  · intro h
    simp [analyze_object, h]
  · intro h
    simp [analyze_object, h]
  · intro j d hj
    cases j <;> first | rfl | exact absurd hj (by simp [JSON.isObjB])
  · intro d
    rfl
  · intro k v rest d
    rcases v with _ | b | n | s | elems | inner
    · exact (max_eq_left (depthOverFields_ge rest d)).symm
    · exact (max_eq_left (depthOverFields_ge rest d)).symm
    · exact (max_eq_left (depthOverFields_ge rest d)).symm
    · exact (max_eq_left (depthOverFields_ge rest d)).symm
    · rcases elems with _ | ⟨x, xs⟩
      · exact (max_eq_left (depthOverFields_ge rest d)).symm
      · rcases x with _ | b | n | s | xe | xi
        · exact (max_eq_left (depthOverFields_ge rest d)).symm
        · exact (max_eq_left (depthOverFields_ge rest d)).symm
        · exact (max_eq_left (depthOverFields_ge rest d)).symm
        · exact (max_eq_left (depthOverFields_ge rest d)).symm
        · exact (max_eq_left (depthOverFields_ge rest d)).symm
        · rfl
    · rfl

/-- Witness for C8 amended on a nested mapping. -/
theorem depth_computation_witness :
    (analyze_object [("a", .obj [("b", .num 1)])]).nesting_level =
      some (calculate_depth (.obj [("a", .obj [("b", .num 1)])]) 0) :=
  (depth_computation [("a", .obj [("b", .num 1)])]).1 (by decide)

/-- The source suitability test matches the amended wording: at most 50
keys, and an identifier-like key (case-insensitive `id` or `_id`, or a
key ending in `_id`) or at most 20 keys. -/
theorem sql_rule_eq (keys : List String) : is_sql_optimized keys = amendedSqlSuitable keys := by
  unfold is_sql_optimized amendedSqlSuitable
  by_cases h : keys.length > 50
  · rw [if_pos h]
    have h50 : ¬ keys.length ≤ 50 := Nat.not_le.mpr h
    simp [h50]
  · rw [if_neg h]
    have h50 : keys.length ≤ 50 := Nat.not_lt.mp h
    simp only [h50, decide_eq_true_eq, Bool.true_and, decide_True]
    rw [Bool.eq_iff_iff]
    simp only [Bool.or_eq_true, List.any_eq_true, decide_eq_true_eq]
    constructor
    · rintro ((⟨k, hk, hid⟩ | ⟨k, hk, hid⟩) | hlen)
      · rcases hid with hid | hid
        · exact Or.inl ⟨k, hk, Or.inl (Or.inl hid)⟩
        · exact Or.inl ⟨k, hk, Or.inl (Or.inr hid)⟩
      · exact Or.inl ⟨k, hk, Or.inr hid⟩
      · exact Or.inr hlen
    · rintro (⟨k, hk, (hid | hid) | hid⟩ | hlen)
      · exact Or.inl (Or.inl ⟨k, hk, Or.inl hid⟩)
      · exact Or.inl (Or.inl ⟨k, hk, Or.inr hid⟩)
      · exact Or.inl (Or.inr ⟨k, hk, hid⟩)
      · exact Or.inr hlen

/-- C3 counterexample: a one-element array of a 21-key mapping whose
only identifier-like key is `_ID`.  The sample is uniform, the claim's
suitability wording rejects it (no case-insensitive `id`, no key ending
in the lowercase `_id`, more than 20 keys), yet the source accepts it
through `key.lower() == "_id"` and classifies it Relational. -/
theorem array_id_rule_counterexample :
    (c3cexData.take 10).all JSON.isObjB = true ∧
    (c3cexData.take 10).all
      (fun item => keySetEq item.keysOf (dedupFirstSeen (c3cexData.headD .null).keysOf)) = true ∧
    claimSqlSuitable (dedupFirstSeen (c3cexData.headD .null).keysOf) = false ∧
    (analyze_array c3cexData).recommendation = "sql" := by decide

/-- C3 amended.  Sequence classification: empty means Document; a
non-mapping among the first `min(10, length)` elements means Document;
a uniform sample whose key set passes suitability (at most 50 keys, and
an identifier-like key — case-insensitive `id` or `_id`, or a key ending
in `_id` — or at most 20 keys) means Relational with the full length as
estimated rows and that key set as columns; otherwise Document. -/
theorem array_classification :
    (analyze_array []).recommendation = "nosql" ∧
    (∀ keys, is_sql_optimized keys = amendedSqlSuitable keys) ∧
    ∀ (x : JSON) (rest : List JSON),
      (((x :: rest).take 10).all JSON.isObjB = false →
        (analyze_array (x :: rest)).recommendation = "nosql") ∧
      (((x :: rest).take 10).all JSON.isObjB = true →
        ((((x :: rest).take 10).all
            (fun item => keySetEq item.keysOf (dedupFirstSeen x.keysOf)) &&
              is_sql_optimized (dedupFirstSeen x.keysOf)) = true →
          analyze_array (x :: rest) =
            { recommendation := "sql",
              reason := "Uniform structured data optimized for SQL",
              estimated_rows := some (x :: rest).length,
              columns := some (dedupFirstSeen x.keysOf) }) ∧
        ((((x :: rest).take 10).all
            (fun item => keySetEq item.keysOf (dedupFirstSeen x.keysOf)) &&
              is_sql_optimized (dedupFirstSeen x.keysOf)) = false →
          (analyze_array (x :: rest)).recommendation = "nosql")) := by
  refine ⟨rfl, sql_rule_eq, ?_⟩
  intro x rest
  refine ⟨?_, ?_⟩
  · intro h
    simp only [analyze_array]
    rw [h]
    simp
  · intro hall
    refine ⟨?_, ?_⟩
    · intro hsql
      simp only [analyze_array]
      rw [hall, hsql]
      simp
    · intro hsql
      simp only [analyze_array]
      rw [hall, hsql]
      simp

/-- Witness for C3 amended at a uniform two-element array of flat
mappings with an `id` key. -/
theorem array_classification_witness :
    analyze_array [.obj [("id", .num 1), ("v", .str "a")], .obj [("id", .num 2), ("v", .str "b")]] =
      { recommendation := "sql", reason := "Uniform structured data optimized for SQL",
        estimated_rows := some 2,
        columns := some (dedupFirstSeen (JSON.obj [("id", .num 1), ("v", .str "a")]).keysOf) } :=
  ((array_classification.2.2 (.obj [("id", .num 1), ("v", .str "a")])
      [.obj [("id", .num 2), ("v", .str "b")]]).2 (by decide)).1 (by decide)

/-- Column/key metrics of array verdicts: absent on the Document path,
the first element's key set on the Relational path. -/
theorem analyze_array_columns (data : List JSON) :
    ((analyze_array data).recommendation = "nosql" →
      (analyze_array data).columns = none ∧ (analyze_array data).keys = none) ∧
    (∀ x rest, data = x :: rest → (analyze_array data).recommendation = "sql" →
      (analyze_array data).columns = some (dedupFirstSeen x.keysOf) ∧
      (analyze_array data).keys = none) := by
  rcases data with _ | ⟨x, rest⟩
  · exact ⟨fun _ => ⟨rfl, rfl⟩, fun x rest he => List.noConfusion he⟩
  · by_cases h1 : (! ((x :: rest).take 10).all JSON.isObjB) = true
    · have hval : analyze_array (x :: rest) =
          { recommendation := "nosql",
            reason := "Array contains non-object items, lacks uniform structure" } := by
        unfold analyze_array
        dsimp only
        rw [if_pos h1]
      rw [hval]
      exact ⟨fun _ => ⟨rfl, rfl⟩,
        fun x' rest' he hsql =>
          absurd (show ("nosql" : String) = "sql" from hsql) (by decide)⟩
    · by_cases h2 : (((x :: rest).take 10).all
          (fun item => keySetEq item.keysOf (dedupFirstSeen x.keysOf)) &&
            is_sql_optimized (dedupFirstSeen x.keysOf)) = true
      · have hval : analyze_array (x :: rest) =
            { recommendation := "sql",
              reason := "Uniform structured data optimized for SQL",
              estimated_rows := some (x :: rest).length,
              columns := some (dedupFirstSeen x.keysOf) } := by
          unfold analyze_array
          dsimp only
          rw [if_neg h1, if_pos h2]
        rw [hval]
        refine ⟨fun hrec => absurd (show ("sql" : String) = "nosql" from hrec) (by decide),
          fun x' rest' he hsql => ?_⟩
        injection he with he1 he2
        subst he1
        exact ⟨rfl, rfl⟩
      · have hval : analyze_array (x :: rest) =
            { recommendation := "nosql",
              reason := "Variable structure or complex data, better for NoSQL batch insertion" } := by
          unfold analyze_array
          dsimp only
          rw [if_neg h1, if_neg h2]
        rw [hval]
        exact ⟨fun _ => ⟨rfl, rfl⟩,
          fun x' rest' he hsql =>
            absurd (show ("nosql" : String) = "sql" from hsql) (by decide)⟩

/-- Column/key metrics of mapping verdicts: absent on the Document path,
the insertion-ordered top-level key list on the Relational path. -/
theorem analyze_object_columns (fields : List (String × JSON)) :
    ((analyze_object fields).recommendation = "nosql" →
      (analyze_object fields).columns = none ∧ (analyze_object fields).keys = none) ∧
    ((analyze_object fields).recommendation = "sql" →
      (analyze_object fields).columns = none ∧
      (analyze_object fields).keys = some (fields.map Prod.fst)) := by
  by_cases h : hasImmediateNesting fields = true
  · refine ⟨fun _ => ?_, fun hrec => ?_⟩
    · constructor <;> simp [analyze_object, h]
    · have hv : (analyze_object fields).recommendation = "nosql" := by simp [analyze_object, h]
      rw [hv] at hrec
      exact absurd hrec (by decide)
  · simp only [Bool.not_eq_true] at h
    refine ⟨fun hrec => ?_, fun _ => ?_⟩
    · have hv : (analyze_object fields).recommendation = "sql" := by simp [analyze_object, h]
      rw [hv] at hrec
      exact absurd hrec (by decide)
    · constructor <;> simp [analyze_object, h]

/-- Column/key metrics of the full analyzer: none on any Document-class
verdict; the key list of the mapping or of the first array element on
Relational verdicts. -/
theorem verdict_columns (file_size : Nat) (parsed : Except String JSON) :
    ((analyze_json_file file_size parsed).recommendation = "nosql" →
      (analyze_json_file file_size parsed).columns = none ∧
      (analyze_json_file file_size parsed).keys = none) ∧
    (∀ fields, parsed = .ok (.obj fields) →
      (analyze_json_file file_size parsed).recommendation = "sql" →
      (analyze_json_file file_size parsed).columns = none ∧
      (analyze_json_file file_size parsed).keys = some (fields.map Prod.fst)) ∧
    (∀ x rest, parsed = .ok (.arr (x :: rest)) →
      (analyze_json_file file_size parsed).recommendation = "sql" →
      (analyze_json_file file_size parsed).columns = some (dedupFirstSeen x.keysOf)) := by
  by_cases hs : file_size > 10 * 1024 * 1024
  · have hval : analyze_json_file file_size parsed =
        { recommendation := "nosql", reason := "File too large for SQL optimization" } := by
      unfold analyze_json_file
      rw [if_pos hs]
    rw [hval]
    exact ⟨fun _ => ⟨rfl, rfl⟩, fun fields he hsql => absurd hsql (by decide),
      fun x rest he hsql => absurd hsql (by decide)⟩
  · cases parsed with
    | error e =>
      have hval : analyze_json_file file_size (.error e) =
          { recommendation := "nosql", reason := "Invalid JSON: " ++ e } := by
        unfold analyze_json_file
        rw [if_neg hs]
      rw [hval]
      exact ⟨fun _ => ⟨rfl, rfl⟩, fun fields he => Except.noConfusion he,
        fun x rest he => Except.noConfusion he⟩
    | ok j =>
      have hval : analyze_json_file file_size (.ok j) =
          (match j with
           | .arr elems => analyze_array elems
           | .obj fields => analyze_object fields
           | _ =>
             { recommendation := "nosql",
               reason := "Simple scalar data type, best handled as NoSQL document" }) := by
        unfold analyze_json_file
        rw [if_neg hs]
        cases j <;> rfl
      rw [hval]
      cases j with
      | arr elems =>
        refine ⟨(analyze_array_columns elems).1, fun fields he => ?_, fun x rest he hsql => ?_⟩
        · exact absurd he (by simp)
        · injection he with he1
          injection he1 with he2
          exact ((analyze_array_columns elems).2 x rest he2 hsql).1
      | obj fields' =>
        refine ⟨(analyze_object_columns fields').1, fun fields he hsql => ?_,
          fun x rest he => ?_⟩
        · injection he with he1
          injection he1 with he2
          subst he2
          exact (analyze_object_columns fields').2 hsql
        · exact absurd he (by simp)
      | null =>
        exact ⟨fun _ => ⟨rfl, rfl⟩, fun fields he => absurd he (by simp),
          fun x rest he => absurd he (by simp)⟩
      | bool b =>
        exact ⟨fun _ => ⟨rfl, rfl⟩, fun fields he => absurd he (by simp),
          fun x rest he => absurd he (by simp)⟩
      | num n =>
        exact ⟨fun _ => ⟨rfl, rfl⟩, fun fields he => absurd he (by simp),
          fun x rest he => absurd he (by simp)⟩
      | str s =>
        exact ⟨fun _ => ⟨rfl, rfl⟩, fun fields he => absurd he (by simp),
          fun x rest he => absurd he (by simp)⟩

/-- A non-duplicate placement appends exactly one metadata record and
one schema record, both addressed by the stored name's stem. -/
theorem store_records_append (st : StorageState) (content : List Nat) (original_name : String)
    (analysis : Analysis) (timestamp isoNow : String)
    (h : check_duplicate st (md5Hex content) analysis.recommendation = "") :
    (store_json_file st content original_name analysis timestamp isoNow false).1.metaRecords =
      st.metaRecords ++
        [(pathStem (store_json_file st content original_name analysis timestamp isoNow
            false).2.stored_name ++ ".meta.json",
          { original_filename := original_name, analysis := analysis,
            analyzed_at := isoNow, file_size := content.length })] ∧
    (store_json_file st content original_name analysis timestamp isoNow false).1.schemaRecords =
      st.schemaRecords ++
        [(pathStem (store_json_file st content original_name analysis timestamp isoNow
            false).2.stored_name ++ ".schema.json",
          { original_filename := original_name, storage_type := analysis.recommendation,
            columns := analysis.columns.getD (analysis.keys.getD []),
            reason := analysis.reason, analyzed_at := isoNow })] := by
  unfold store_json_file
  rw [if_neg (by simp [h]), if_neg (by simp)]
  by_cases hrec : analysis.recommendation = "sql" <;> simp [save_metadata, hrec]

/-- C9 counterexample: a nested mapping is stored as a non-duplicate
document, yet its schema record's columns list is empty while the
document's top-level field-name list is `["a"]`. -/
theorem schema_columns_counterexample :
    (let r := ingest emptyState [] (.ok (.obj c9cexFields)) "data.json" "20260101_120000" "iso"
     r.2.success = true ∧ r.2.duplicate = false ∧
       r.1.schemaRecords.map (fun p => p.2.columns) = [[]] ∧
       (JSON.obj c9cexFields).keysOf = ["a"]) := by decide

/-- C9 amended.  Every non-duplicate placement yields exactly one
metadata record and exactly one schema record, co-addressed by the
stored-name stem; the schema record's columns field equals the verdict's
column list — the top-level key list in first-seen order for a mapping
classified Relational, the first element's key set for an array
classified Relational, and empty for every Document-class verdict. -/
theorem side_records_per_placement (st : StorageState) (content : List Nat)
    (parsed : Except String JSON) (original_name timestamp isoNow : String)
    (h : check_duplicate st (md5Hex content)
      (analyze_json_file content.length parsed).recommendation = "") :
    (ingest st content parsed original_name timestamp isoNow).1.metaRecords =
      st.metaRecords ++
        [(pathStem (ingest st content parsed original_name timestamp isoNow).2.stored_name ++
            ".meta.json",
          { original_filename := original_name,
            analysis := analyze_json_file content.length parsed,
            analyzed_at := isoNow, file_size := content.length })] ∧
    (ingest st content parsed original_name timestamp isoNow).1.schemaRecords =
      st.schemaRecords ++
        [(pathStem (ingest st content parsed original_name timestamp isoNow).2.stored_name ++
            ".schema.json",
          { original_filename := original_name,
            storage_type := (analyze_json_file content.length parsed).recommendation,
            columns := (analyze_json_file content.length parsed).columns.getD
              ((analyze_json_file content.length parsed).keys.getD []),
            reason := (analyze_json_file content.length parsed).reason,
            analyzed_at := isoNow })] ∧
    ((analyze_json_file content.length parsed).recommendation = "nosql" →
      (analyze_json_file content.length parsed).columns.getD
        ((analyze_json_file content.length parsed).keys.getD []) = []) ∧
    (∀ fields, parsed = .ok (.obj fields) →
      (analyze_json_file content.length parsed).recommendation = "sql" →
      (analyze_json_file content.length parsed).columns.getD
        ((analyze_json_file content.length parsed).keys.getD []) = fields.map Prod.fst) ∧
    (∀ x rest, parsed = .ok (.arr (x :: rest)) →
      (analyze_json_file content.length parsed).recommendation = "sql" →
      (analyze_json_file content.length parsed).columns.getD
        ((analyze_json_file content.length parsed).keys.getD []) = dedupFirstSeen x.keysOf) := by
  refine ⟨(store_records_append st content original_name _ timestamp isoNow h).1,
    (store_records_append st content original_name _ timestamp isoNow h).2, ?_, ?_, ?_⟩
  · intro hrec
    obtain ⟨hc, hk⟩ := (verdict_columns content.length parsed).1 hrec
    rw [hc, hk]
    rfl
  · intro fields he hsql
    obtain ⟨hc, hk⟩ := (verdict_columns content.length parsed).2.1 fields he hsql
    rw [hc, hk]
    rfl
  · intro x rest he hsql
    have hc := (verdict_columns content.length parsed).2.2 x rest he hsql
    rw [hc]
    rfl

/-- Witness for C9 amended: the schema record written for a flat
mapping carries its key list. -/
theorem side_records_per_placement_witness :
    (analyze_json_file (0 : Nat) (.ok (.obj [("id", .num 1)]))).columns.getD
      ((analyze_json_file (0 : Nat) (.ok (.obj [("id", .num 1)]))).keys.getD []) =
        [("id", JSON.num 1)].map Prod.fst :=
  (side_records_per_placement emptyState [] (.ok (.obj [("id", .num 1)])) "data.json"
      "20260101_120000" "iso" (by decide)).2.2.2.1 [("id", .num 1)] rfl (by decide)

example : (analyze_object [("id", .num 1), ("name", .str "a")]).recommendation = "sql" := by
  decide

example : (analyze_array [.obj [("id", .num 1), ("v", .str "a")],
    .obj [("id", .num 2), ("v", .str "b")]]).estimated_rows = some 2 := by decide

example :
    (analyze_object [("id", .num 1), ("meta", .obj [("tags", .arr [.str "x"])])]).nesting_level
      = some 1 := by decide

example : md5Hex [] = "d41d8cd98f00b204e9800998ecf8427e" := by decide
